import Mathlib

/-!
Verification development for the safer multisig-wallet client.

The definitions below are a shallow embedding of the transaction
lifecycle engine of the repository:

* `SaferTransaction` and its operations — `src/core/transaction.js`
* `ExecuteService.executeTransaction` — `src/core/services/ExecuteService.js`
* `FileTransactionManager.transactionToFile / transactionFromFile /
  loadTransaction` — the file-backed store
* `IPFSTransactionManager.loadTransactionFromIPFS` — the gateway-fallback
  remote store

JavaScript values are modelled as follows: strings are `String`, JS
numbers that the code uses as integers are `Int` (or `Nat` for the
operation enum), `undefined` is `Option.none`, objects used as string
maps are association lists in insertion order (JS object key order for
non-index keys).  File contents are modelled at the parsed-JSON level:
a `.safer` file is its envelope value (`TxFile`), since
`JSON.parse (JSON.stringify v) = v` for the JSON-safe values involved.
-/

deriving instance DecidableEq for Except

/-- JS metadata values occurring in the code: strings, integers,
booleans, and `undefined` (a key explicitly set to `undefined`). -/
inductive MVal where
  | str (v : String)
  | int (v : Int)
  | bool (v : Bool)
  | undef
deriving DecidableEq, Repr

/-- A `chainId` is a JS number or string (`@param {string|number} chainId`). -/
inductive CId where
  | num (n : Int)
  | str (s : String)
deriving DecidableEq, Repr

/-- JS truthiness of a possibly-undefined chainId value. -/
def cidTruthy : Option CId → Bool
  | none => false
  | some (.num n) => n ≠ 0
  | some (.str s) => s ≠ ""

/-- JS truthiness test for a possibly-undefined string (`!x`). -/
def jsFalsyStr : Option String → Bool
  | none => true
  | some s => s = ""

/-- `s.toLowerCase()` (ASCII, which is all the code compares). -/
def jsToLower (s : String) : String :=
  String.mk (s.data.map Char.toLower)

/-- `s.startsWith(pre)`. -/
def jsStartsWith (s pre : String) : Bool :=
  pre.data.isPrefixOf s.data

/-- `s.endsWith(suf)`. -/
def jsEndsWith (s suf : String) : Bool :=
  suf.data.isSuffixOf s.data

/-- `s.includes(sub)` on JS strings. -/
def jsIncludes (s sub : String) : Bool :=
  s.data.tails.any (fun t => sub.data.isPrefixOf t)

/-- `s.trim()`. -/
def jsTrim (s : String) : String :=
  String.mk
    (((s.data.dropWhile Char.isWhitespace).reverse.dropWhile
      Char.isWhitespace).reverse)

/-- `s.split(c)` for a single-character separator. -/
def splitOnChar (c : Char) : List Char → List (List Char)
  | [] => [[]]
  | x :: xs =>
    let r := splitOnChar c xs
    if x = c then [] :: r
    else
      match r with
      | h :: t => (x :: h) :: t
      | [] => [[x]]

/-- JS object keyed by strings, in insertion order (keys unique). -/
abbrev SigMap := List (String × String)

/-- Key list of a JS object (`Object.keys`). -/
def objKeys {α : Type} (m : List (String × α)) : List String :=
  m.map Prod.fst

/-- `{...m, [k]: v}`: replace in place if `k` is already a key of `m`
(JS keeps the original insertion position), otherwise append. -/
def setKey {α : Type} (m : List (String × α)) (k : String) (v : α) :
    List (String × α) :=
  if (objKeys m).contains k then
    m.map (fun p => if p.1 = k then (k, v) else p)
  else
    m ++ [(k, v)]

/-- Spread several key/value updates onto a JS object in order. -/
def setKeys {α : Type} (m : List (String × α)) (kvs : List (String × α)) :
    List (String × α) :=
  kvs.foldl (fun acc p => setKey acc p.1 p.2) m

def zeroAddress : String := "0x0000000000000000000000000000000000000000"

/-- Transaction status string enum (`TRANSACTION_STATUS` in
`src/core/transaction.js`). -/
def STATUS_PENDING : String := "PENDING"
def STATUS_SUBMITTED : String := "SUBMITTED"
def STATUS_EXECUTED : String := "EXECUTED"
def STATUS_SUCCESSFUL : String := "SUCCESSFUL"
def STATUS_FAILED : String := "FAILED"

/-- The transaction entity, as built by the `SaferTransaction`
constructor: every field resolved (defaults applied).
`chainId = none` models an entity whose `chainId` property is
`undefined`; `executionDate = none` models `null`;
`isSuccessful = none` models `null`. -/
structure SaferTransaction where
  hash : String
  /-- the `to` field of the source (`to` is reserved in Lean) -/
  toAddr : String
  value : String
  data : String
  operation : Nat
  safeTxGas : String
  baseGas : String
  gasPrice : String
  gasToken : String
  refundReceiver : String
  nonce : Int
  signatures : SigMap
  createDate : String
  status : String
  metadata : List (String × MVal)
  chainId : Option CId
  executionDate : Option String
  isExecuted : Bool
  isSuccessful : Option Bool
deriving DecidableEq, Repr

/-- The argument object of the `SaferTransaction` constructor.
`none` is an absent/`undefined` property.  For `isSuccessful`,
`some none` is an explicit `null` (kept), `none` is `undefined`
(recomputed from status); for `executionDate`, `none` covers both
`undefined` and `null` (the constructor maps both to `null`). -/
structure TxParams where
  hash : Option String := none
  toAddr : Option String := none
  value : Option String := none
  data : Option String := none
  operation : Option Nat := none
  safeTxGas : Option String := none
  baseGas : Option String := none
  gasPrice : Option String := none
  gasToken : Option String := none
  refundReceiver : Option String := none
  nonce : Option Int := none
  signatures : Option SigMap := none
  createDate : Option String := none
  status : Option String := none
  metadata : Option (List (String × MVal)) := none
  chainId : Option CId := none
  executionDate : Option String := none
  isExecuted : Option Bool := none
  isSuccessful : Option (Option Bool) := none
deriving DecidableEq, Repr

/-- Field resolution of the `SaferTransaction` constructor
(`src/core/transaction.js`, lines 86–113): defaults applied after the
required-field checks have passed.  `now` stands for
`new Date().toISOString()`, used only when `createDate` is absent. -/
def mkFields (p : TxParams) (now : String) : SaferTransaction :=
  let status := p.status.getD STATUS_PENDING
  {
      hash := p.hash.getD ""
      toAddr := p.toAddr.getD ""
      value := match p.value with
        | some v => if v = "" then "0" else v
        | none => "0"
      data := match p.data with
        | some v => if v = "" then "0x" else v
        | none => "0x"
      operation := p.operation.getD 0
      safeTxGas := p.safeTxGas.getD "0"
      baseGas := p.baseGas.getD "0"
      gasPrice := p.gasPrice.getD "0"
      gasToken := p.gasToken.getD zeroAddress
      refundReceiver := p.refundReceiver.getD zeroAddress
      nonce := p.nonce.getD 0
      signatures := p.signatures.getD []
      createDate := p.createDate.getD now
      status := status
      metadata := p.metadata.getD []
      chainId := p.chainId
      executionDate := p.executionDate
      isExecuted := p.isExecuted.getD
        (status = STATUS_EXECUTED ∨ status = STATUS_SUCCESSFUL ∨
          status = STATUS_FAILED : Bool)
      isSuccessful := match p.isSuccessful with
        | some v => v
        | none =>
          if status = STATUS_SUCCESSFUL then some true
          else if status = STATUS_FAILED then some false
          else none
    }

/-- The `SaferTransaction` constructor (`src/core/transaction.js`,
lines 60–113): required-field checks (JS truthiness: a missing *or
empty* `hash`/`to` throws; `nonce` must not be `undefined`), then field
resolution.  Throwing is modelled as `.error`. -/
def mkSaferTransaction (p : TxParams) (now : String) :
    Except String SaferTransaction :=
  if jsFalsyStr p.hash then .error "Transaction hash is required"
  else if jsFalsyStr p.toAddr then .error "Transaction to address is required"
  else if p.nonce = none then .error "Transaction nonce is required"
  else .ok (mkFields p now)

/-- `{...this}` on an entity: every own property, as a constructor
argument object. -/
def spreadTx (tx : SaferTransaction) : TxParams where
  hash := some tx.hash
  toAddr := some tx.toAddr
  value := some tx.value
  data := some tx.data
  operation := some tx.operation
  safeTxGas := some tx.safeTxGas
  baseGas := some tx.baseGas
  gasPrice := some tx.gasPrice
  gasToken := some tx.gasToken
  refundReceiver := some tx.refundReceiver
  nonce := some tx.nonce
  signatures := some tx.signatures
  createDate := some tx.createDate
  status := some tx.status
  metadata := some tx.metadata
  chainId := tx.chainId
  executionDate := tx.executionDate
  isExecuted := some tx.isExecuted
  isSuccessful := some tx.isSuccessful

/-- `isSignedBy` (`src/core/transaction.js`, lines 233–241):
case-insensitive membership of the owner among the signature keys. -/
def SaferTransaction.isSignedBy (tx : SaferTransaction)
    (ownerAddress : String) : Bool :=
  ((objKeys tx.signatures).map jsToLower).contains (jsToLower ownerAddress)

/-- `hasEnoughSignatures` (`src/core/transaction.js`, lines 203–225).
`executorAddress = none` models a missing / `null` argument; the code
tests `!executorAddress`, so an empty string behaves like `null`. -/
def SaferTransaction.hasEnoughSignatures (tx : SaferTransaction)
    (threshold : Int) (executorAddress : Option String) : Bool :=
  let signatureCount : Int := tx.signatures.length
  if signatureCount ≥ threshold then true
  else if jsFalsyStr executorAddress then decide (signatureCount ≥ threshold)
  else if tx.isSignedBy (executorAddress.getD "") then
    decide (signatureCount ≥ threshold)
  else decide (signatureCount + 1 ≥ threshold)

/-- `addSignature` (`src/core/transaction.js`, lines 181–193):
`new SaferTransaction({...this, signatures: {...this.signatures, [owner]: sig}})`. -/
def SaferTransaction.addSignature (tx : SaferTransaction)
    (ownerAddress signature : String) (now : String) :
    Except String SaferTransaction :=
  mkSaferTransaction
    { spreadTx tx with
      signatures := some (setKey tx.signatures ownerAddress signature) }
    now

/-- `updateStatus` (`src/core/transaction.js`, lines 258–264):
`new SaferTransaction({...this, status: newStatus})`. -/
def SaferTransaction.updateStatus (tx : SaferTransaction)
    (newStatus : String) (now : String) : Except String SaferTransaction :=
  mkSaferTransaction { spreadTx tx with status := some newStatus } now

/-- The `data` object of the on-disk envelope, at parsed-JSON level.
`none` = key absent (for `isSuccessful`, `some none` = JSON `null`). -/
structure TxData where
  hash : Option String := none
  toAddr : Option String := none
  value : Option String := none
  data : Option String := none
  operation : Option Nat := none
  safeTxGas : Option String := none
  baseGas : Option String := none
  gasPrice : Option String := none
  gasToken : Option String := none
  refundReceiver : Option String := none
  nonce : Option Int := none
  signatures : Option SigMap := none
  createDate : Option String := none
  status : Option String := none
  metadata : Option (List (String × MVal)) := none
  chainId : Option CId := none
  executionDate : Option String := none
  isExecuted : Option Bool := none
  isSuccessful : Option (Option Bool) := none
deriving DecidableEq, Repr

/-- The versioned on-disk envelope `{version, type, data}`.
`version = ""` models a missing/falsy version marker. -/
structure TxFile where
  version : String
  type : String
  data : Option TxData
deriving DecidableEq, Repr

/-- Result of `transactionToFile`: a filename and the file content
(content at parsed-JSON level). -/
structure FileOut where
  filename : String
  content : TxFile
deriving DecidableEq, Repr

/-- `hash.slice(-8)`: the last 8 characters (whole string if shorter). -/
def jsSliceLast8 (s : String) : String :=
  String.mk (s.toList.drop (s.toList.length - 8))

/-- `FileTransactionManager.transactionToFile`
(`src/cli` store, lines 722–767): serialize the entity into the
versioned envelope; filename `{nonce}-{last8ofHash}.safer`.
`JSON.stringify` drops `undefined`-valued keys, which is exactly
`Option.none` in the envelope. -/
def transactionToFile (tx : SaferTransaction) : FileOut where
  filename :=
    let n := tx.nonce
    let hashSuffix := jsSliceLast8 tx.hash
    s!"{n}-{hashSuffix}.safer"
  content := {
    version := "0.1.1"
    type := "SaferTransaction"
    data := some {
      hash := some tx.hash
      toAddr := some tx.toAddr
      value := some tx.value
      data := some tx.data
      operation := some tx.operation
      safeTxGas := some tx.safeTxGas
      baseGas := some tx.baseGas
      gasPrice := some tx.gasPrice
      gasToken := some tx.gasToken
      refundReceiver := some tx.refundReceiver
      nonce := some tx.nonce
      signatures := some tx.signatures
      createDate := some tx.createDate
      status := some tx.status
      metadata := some tx.metadata
      chainId := tx.chainId
      executionDate := tx.executionDate
      isExecuted := some tx.isExecuted
      isSuccessful := some tx.isSuccessful
    }
  }

/-- `FileTransactionManager.transactionFromFile`
(`src/cli` store, lines 776–839): validate the envelope and required
fields, then run the `SaferTransaction` constructor.  `now` stands for
`new Date().toISOString()` inside the constructor (used only when the
file has no `createDate`). -/
def transactionFromFile (f : TxFile) (now : String) :
    Except String SaferTransaction :=
  if f.version = "" then .error "Missing file version"
  else if f.type ≠ "SaferTransaction" then
    let t := f.type
    .error s!"Invalid file type: {t}"
  else
    match f.data with
    | none => .error "Missing transaction data"
    | some d =>
      if jsFalsyStr d.hash then .error "Missing transaction hash"
      else if jsFalsyStr d.toAddr then
        .error "Missing transaction to address"
      else if d.nonce = none then .error "Missing transaction nonce"
      else if !cidTruthy d.chainId then
        .error "Missing transaction chainId"
      else
        mkSaferTransaction {
          hash := d.hash
          toAddr := d.toAddr
          value := d.value
          data := d.data
          operation := d.operation
          safeTxGas := d.safeTxGas
          baseGas := d.baseGas
          gasPrice := d.gasPrice
          gasToken := d.gasToken
          refundReceiver := d.refundReceiver
          nonce := d.nonce
          signatures := some (d.signatures.getD [])
          createDate := d.createDate
          status := d.status
          metadata := some (d.metadata.getD [])
          chainId := d.chainId
          executionDate := d.executionDate
          isExecuted := d.isExecuted
          isSuccessful := d.isSuccessful
        } now

/-- Outcome of `transactionResponse.wait()` raced against the 120 s
timer: either a receipt `{status, blockNumber, gasUsed}`, or a rejection
(`wait` failing, or the timer winning with message
"Transaction confirmation timeout"). -/
inductive WaitResult where
  | confirmed (receiptStatus : Int) (blockNumber : Int) (gasUsed : String)
  | failed (msg : String)
deriving DecidableEq, Repr

/-- The `transactionResponse` handle of a broadcast. -/
structure TxResponse where
  hash : String
  wait : WaitResult
deriving DecidableEq, Repr

/-- Outcome of `safeSdk.executeTransaction` (the broadcast call). -/
inductive BroadcastResult where
  | throws (msg : String) (code : Option String)
  | succeeds (hash : String) (resp : Option TxResponse)
deriving DecidableEq, Repr

/-- The collaborators' observable behaviour during one
`executeTransaction` call: signer address, on-chain owners and
threshold, the broadcast outcome, plus `now` for all
`new Date().toISOString()` calls and `chainId` for the caller's
chain-id parameter. -/
structure ExecEnv where
  executorAddress : String
  owners : List String
  threshold : Int
  broadcast : BroadcastResult
  chainId : CId
  now : String
deriving DecidableEq, Repr

/-- The error object finally thrown by `executeTransaction`
(a `TransactionExecutionError` with copied code/current/required and
the recovered entity attached). -/
structure TxExecError where
  message : String
  code : Option String
  current : Option Int
  required : Option Int
  transaction : SaferTransaction
deriving DecidableEq, Repr

/-- Observable result of `executeTransaction`: a normal return of the
updated entity, or a thrown `TransactionExecutionError`. -/
inductive ExecOutcome where
  | returned (tx : SaferTransaction)
  | threw (e : TxExecError)
deriving DecidableEq, Repr

/-- `error.message || 'Unknown execution error'`. -/
def orUnknownExecError (msg : String) : String :=
  if msg = "" then "Unknown execution error" else msg

/-- `ExecuteService.executeTransaction`
(`src/core/services/ExecuteService.js`, lines 40–341), with the SDK
set-up calls abstracted into `env`.  Control flow of the source:

* guard failure throws `InsufficientSignaturesError`, which reaches the
  outer catch (it carries no `.transaction`), is wrapped into a
  `TransactionExecutionError` with a PENDING-annotated entity attached,
  and is re-thrown — modelled as `.threw`;
* any error inside the inner try (broadcast throw, or the
  confirmation-wait error re-thrown at line 214) is wrapped by the
  inner catch, which attaches a PENDING-annotated entity, and the outer
  catch then *returns* `error.transaction` — modelled as `.returned`;
  note that the inner catch overwrites the SUBMITTED entity built in
  the confirmation-error handler (lines 202–213) before anything
  observes it;
* otherwise the built entity is returned.

Constructor failures inside (impossible when the input entity has
non-empty `hash` and `to`) surface as `.error`. -/
def executeTransaction (env : ExecEnv) (transaction : SaferTransaction) :
    Except String ExecOutcome := do
  let executorAddress := env.executorAddress
  let isExecutorOwner :=
    env.owners.any (fun o => jsToLower o = jsToLower executorAddress)
  let threshold := env.threshold
  let hasEnoughSigs := transaction.hasEnoughSignatures threshold
    (if isExecutorOwner then some executorAddress else none)
  if !hasEnoughSigs then
    let signatureCount : Int := transaction.signatures.length
    let requiredSignatures :=
      if isExecutorOwner then threshold - 1 else threshold
    let errorMessage :=
      if isExecutorOwner then
        s!"Insufficient signatures to execute: {signatureCount}/{requiredSignatures} (executor counts as a signature)"
      else
        s!"Insufficient signatures to execute: {signatureCount}/{threshold}"
    -- outer catch: the InsufficientSignaturesError has no
    -- `.transaction`, so a PENDING-annotated entity is built and the
    -- wrapped error is thrown
    let utx ← mkSaferTransaction
      { spreadTx transaction with
        status := some STATUS_PENDING
        metadata := some (setKeys transaction.metadata
          [("outerErrorMessage", .str errorMessage),
           ("outerErrorCode", .str "INSUFFICIENT_SIGNATURES"),
           ("outerErrorTime", .str env.now),
           ("ledgerError", .bool (jsIncludes errorMessage "Ledger" ||
             jsIncludes errorMessage "USB"))])
        chainId := some env.chainId } env.now
    return .threw {
      message := errorMessage
      code := some "INSUFFICIENT_SIGNATURES"
      current := some signatureCount
      required := some requiredSignatures
      transaction := utx }
  else
    match env.broadcast with
    | .throws msg code =>
      -- inner catch; the outer catch then returns `error.transaction`
      let utx ← mkSaferTransaction
        { spreadTx transaction with
          status := some STATUS_PENDING
          metadata := some (setKeys transaction.metadata
            [("errorMessage", .str (orUnknownExecError msg)),
             ("errorCode", match code with
               | some c => .str c
               | none => .undef),
             ("errorTime", .str env.now)])
          chainId := some env.chainId } env.now
      return .returned utx
    | .succeeds bhash resp =>
      -- line 157: the provisional SUBMITTED entity (overwritten in
      -- every branch below before it is returned)
      let _submitted ← mkSaferTransaction
        { spreadTx transaction with
          status := some STATUS_SUBMITTED
          metadata := some (setKeys transaction.metadata
            [("submittedTxHash", .str bhash),
             ("executor", .str executorAddress),
             ("submissionDate", .str env.now)]) } env.now
      match resp with
      | none =>
        -- no transaction-response handle: stay PENDING with a warning
        let utx ← mkSaferTransaction
          { spreadTx transaction with
            status := some STATUS_PENDING
            metadata := some (setKeys transaction.metadata
              [("executor", .str executorAddress),
               ("warning", .str "Transaction execution returned no receipt. Status uncertain.")])
            chainId := some env.chainId } env.now
        return .returned utx
      | some r =>
        match r.wait with
        | .confirmed receiptStatus blockNumber gasUsed =>
          -- confirmed: SUCCESSFUL or FAILED terminal entity
          -- (the top-level `transactionHash:` argument of the source is
          -- not a constructor parameter and is ignored by it)
          let utx ← mkSaferTransaction
            { spreadTx transaction with
              status := some (if receiptStatus = 1 then STATUS_SUCCESSFUL
                else STATUS_FAILED)
              executionDate := some env.now
              isExecuted := some true
              isSuccessful := some (some (receiptStatus = 1))
              metadata := some (setKeys transaction.metadata
                [("executor", .str executorAddress),
                 ("blockNumber", .int blockNumber),
                 ("gasUsed", .str gasUsed),
                 ("transactionHash", .str r.hash)])
              chainId := some env.chainId } env.now
          return .returned utx
        | .failed cmsg =>
          -- confirmation error: the handler builds a SUBMITTED entity
          -- with a `confirmationError` annotation and re-throws; the
          -- inner catch then overwrites it with a PENDING entity,
          -- which the outer catch returns
          let _clobbered ← mkSaferTransaction
            { spreadTx transaction with
              status := some STATUS_SUBMITTED
              metadata := some (setKeys transaction.metadata
                [("submittedTxHash", .str r.hash),
                 ("executor", .str executorAddress),
                 ("submissionDate", .str env.now),
                 ("confirmationError", .str (orUnknownExecError cmsg))])
              chainId := some env.chainId } env.now
          let utx ← mkSaferTransaction
            { spreadTx transaction with
              status := some STATUS_PENDING
              metadata := some (setKeys transaction.metadata
                [("errorMessage", .str (orUnknownExecError cmsg)),
                 ("errorCode", .undef),
                 ("errorTime", .str env.now)])
              chainId := some env.chainId } env.now
          return .returned utx

/-- Strip one optional leading `+`/`-` sign. -/
def stripSign (l : List Char) : List Char :=
  match l with
  | c :: rest => if c = '+' ∨ c = '-' then rest else l
  | [] => l

/-- Split a char list at the first char satisfying `p`; `none` if no
such char. -/
def splitFirst (p : Char → Bool) : List Char → List Char × Option (List Char)
  | [] => ([], none)
  | c :: rest =>
    if p c then ([], some rest)
    else
      let r := splitFirst p rest
      (c :: r.1, r.2)

/-- JS `StrDecimalLiteral` (optional sign, digits with at most one dot,
optional exponent). -/
def isStrDecimal (l : List Char) : Bool :=
  let mantSplit := splitFirst (fun c => c = 'e' || c = 'E') l
  let m := stripSign mantSplit.1
  let dotSplit := splitFirst (· = '.') m
  let mantOk := match dotSplit.2 with
    | none => !dotSplit.1.isEmpty && dotSplit.1.all Char.isDigit
    | some fp =>
      dotSplit.1.all Char.isDigit && fp.all Char.isDigit &&
        (!dotSplit.1.isEmpty || !fp.isEmpty)
  let expOk := match mantSplit.2 with
    | none => true
    | some e0 =>
      let e := stripSign e0
      !e.isEmpty && e.all Char.isDigit
  mantOk && expOk

/-- ASCII hex-digit test. -/
def isHexDigitChar (c : Char) : Bool :=
  c.isDigit || (decide ('a' ≤ c) && decide (c ≤ 'f')) ||
    (decide ('A' ≤ c) && decide (c ≤ 'F'))

/-- JS hex/octal/binary numeric literal (no sign allowed). -/
def isRadixLit : List Char → Bool
  | '0' :: x :: rest =>
    ((x = 'x' || x = 'X') && !rest.isEmpty && rest.all isHexDigitChar) ||
    ((x = 'o' || x = 'O') && !rest.isEmpty &&
      rest.all (fun c => decide ('0' ≤ c) && decide (c ≤ '7'))) ||
    ((x = 'b' || x = 'B') && !rest.isEmpty &&
      rest.all (fun c => c = '0' || c = '1'))
  | _ => false

/-- `!isNaN(s)` for a JS string: whether `Number(s)` is a number
(empty / whitespace-only coerces to `0`, hence numeric). -/
def jsIsNumeric (s : String) : Bool :=
  let t := jsTrim s
  if t = "" then true
  else
    let l := t.data
    isStrDecimal l || decide (stripSign l = "Infinity".data) ||
      isRadixLit l

/-- Value of a non-empty decimal digit list. -/
def digitsVal (l : List Char) : Nat :=
  l.foldl (fun a c => a * 10 + (c.toNat - '0'.toNat)) 0

/-- `parseInt(s, 10)`: trim, optional sign, longest leading digit run;
`none` models `NaN`. -/
def parseIntJs (s : String) : Option Int :=
  let t := (jsTrim s).data
  let signRest : Int × List Char := match t with
    | '-' :: r => (-1, r)
    | '+' :: r => (1, r)
    | _ => (1, t)
  let ds := signRest.2.takeWhile Char.isDigit
  if ds = [] then none
  else some (signRest.1 * (digitsVal ds : Int))

/-- Nonce-match test of Case 2 of `loadTransaction`: the file name has
a `-` and `parseInt` of its leading segment equals `parseInt` of the
input (a `NaN` on either side never matches). -/
def nonceMatches (fname txInput : String) : Bool :=
  let parts := splitOnChar '-' fname.data
  decide (parts.length > 1) &&
    match parseIntJs (String.mk (parts.headD [])), parseIntJs txInput with
    | some a, some b => a = b
    | _, _ => false

/-- Nonce key used when Case 3 sorts multiple matches (descending);
`parseInt` failure (`NaN`) is modelled as `0` — the source's comparator
behaviour on `NaN` is unspecified and unexercised. -/
def fileNonceKey (fname : String) : Int :=
  (parseIntJs (String.mk ((splitOnChar '-' fname.data).headD []))).getD 0

/-- Insert into a descending-sorted list, before the first element of
no larger key — a stable sort step. -/
def insertDescBy {α : Type} (key : α → Int) (x : α) :
    List α → List α
  | [] => [x]
  | y :: ys =>
    if key y ≤ key x then x :: y :: ys else y :: insertDescBy key x ys

/-- Stable sort, descending by `key` — models the stable
`Array.prototype.sort` with comparator `key b - key a`. -/
def sortDescBy {α : Type} (key : α → Int) (l : List α) : List α :=
  l.foldr (insertDescBy key) []

/-- Outcome of searching one directory in `loadTransaction`: a parsed
transaction, an abort (a file matched but failed to parse — the
exception leaves the directory loop), or `continue` to the next
directory. -/
inductive DirResult where
  | foundOk (tx : SaferTransaction)
  | foundErr (msg : String)
  | next
deriving DecidableEq, Repr

/-- A directory: the readdir listing, each file name with its content. -/
abbrev TxDir := List (String × TxFile)

/-- Case 1 scan: parse every file in order and return the first whose
hash equals the (lowercased) input hash; parse failures are skipped. -/
def scanExact (files : TxDir) (txHash : String) (now : String) :
    Option SaferTransaction :=
  files.findSome? (fun f =>
    match transactionFromFile f.2 now with
    | .ok tx => if jsToLower tx.hash = txHash then some tx else none
    | .error _ => none)

/-- One directory iteration of `FileTransactionManager.loadTransaction`
(`src/cli` store, lines 491–589): filter to `.safer` files, then
resolve the identifier as full hash / nonce / fuzzy substring. -/
def dirLookup (listing : TxDir) (txInput : String) (now : String) :
    DirResult :=
  let files := listing.filter (fun f => jsEndsWith f.1 ".safer")
  if files.length = 0 then .next
  else if jsStartsWith txInput "0x" then
    let txHash := jsToLower txInput
    match scanExact files txHash now with
    | some tx => .foundOk tx
    | none =>
      if txHash.length = 66 then
        let shortHash := jsSliceLast8 txHash
        match files.find? (fun f => jsIncludes f.1 shortHash) with
        | some f =>
          match transactionFromFile f.2 now with
          | .ok tx => .foundOk tx
          | .error m => .foundErr m
        | none => .next
      else .next
  else if jsIsNumeric txInput then
    match files.find? (fun f => nonceMatches f.1 txInput) with
    | some f =>
      match transactionFromFile f.2 now with
      | .ok tx => .foundOk tx
      | .error m => .foundErr m
    | none => .next
  else
    let pHash := jsToLower txInput
    let matchingFiles :=
      files.filter (fun f => jsIncludes (jsToLower f.1) pHash)
    match matchingFiles with
    | [] => .next
    | _ =>
      let sorted := sortDescBy (fun f => fileNonceKey f.1) matchingFiles
      match sorted.headD ("", ⟨"", "", none⟩) with
      | f =>
        match transactionFromFile f.2 now with
        | .ok tx => .foundOk tx
        | .error m => .foundErr m

/-- Errors of `loadTransaction`: `TransactionNotFoundError`, or a
wrapped `Failed to load transaction` error. -/
inductive LoadError where
  | notFound (txInput : String)
  | failed (msg : String)
deriving DecidableEq, Repr

/-- `FileTransactionManager.loadTransaction` over its search-directory
list (the `(safe, chain)` directory, then optionally the flat base
directory): the first directory that resolves the identifier decides
the result; if none does, `TransactionNotFoundError` is raised. -/
def loadTransaction (dirs : List TxDir) (txInput : String) (now : String) :
    Except LoadError SaferTransaction :=
  match dirs with
  | [] => .error (.notFound txInput)
  | d :: rest =>
    match dirLookup d txInput now with
    | .foundOk tx => .ok tx
    | .foundErr m => .error (.failed s!"Failed to load transaction: {m}")
    | .next => loadTransaction rest txInput now

/-- One gateway attempt of `loadTransactionFromIPFS`, at parsed-JSON
level: either the request failed, or it produced a body that is an
envelope-shaped JSON string, an envelope-shaped object (truthy
`version`, `type === 'SaferTransaction'`, truthy `data`), or a bare
data object (wrapped into a `0.1.0` envelope by the code). -/
inductive GatewayResult where
  | failure (msg : String)
  | strEnvelope (f : TxFile)
  | objEnvelope (f : TxFile)
  | objBare (d : TxData)
deriving DecidableEq, Repr

/-- The body of one gateway attempt (`IPFSTransactionManager`,
lines 224–263): normalize the response shape and parse it; every
thrown error is caught by the loop. -/
def attemptGateway (g : GatewayResult) (now : String) :
    Except String SaferTransaction :=
  match g with
  | .failure m => .error m
  | .strEnvelope f => transactionFromFile f now
  | .objEnvelope f => transactionFromFile f now
  | .objBare d =>
    transactionFromFile { version := "0.1.0", type := "SaferTransaction", data := some d } now

/-- Errors of `loadTransactionFromIPFS`: missing CID, or a
`TransactionNotFoundError` carrying the last gateway error. -/
inductive IpfsError where
  | missingCid
  | notFound (lastError : Option String)
deriving DecidableEq, Repr

/-- The gateway loop: try each gateway outcome in order, first success
short-circuits, failures update `lastError`. -/
def loadIPFSLoop (gs : List GatewayResult) (lastError : Option String)
    (now : String) : Except IpfsError SaferTransaction :=
  match gs with
  | [] => .error (.notFound lastError)
  | g :: rest =>
    match attemptGateway g now with
    | .ok tx => .ok tx
    | .error m => loadIPFSLoop rest (some m) now

/-- `IPFSTransactionManager.loadTransactionFromIPFS`
(lines 215–267): reject a missing CID, else run the sequential
gateway-fallback loop over the prioritized gateway list (modelled by
the per-gateway outcomes in priority order). -/
def loadTransactionFromIPFS (cid : String) (gs : List GatewayResult)
    (now : String) : Except IpfsError SaferTransaction :=
  if cid = "" then .error .missingCid
  else loadIPFSLoop gs none now

/-! ### Concrete fixtures used by the claim theorems -/

/-- A PENDING entity with one signature from owner `0xa1`. -/
def sampleTx1 : SaferTransaction := {
  hash := "0xh1", toAddr := "0xt1", value := "0", data := "0x",
  operation := 0, safeTxGas := "0", baseGas := "0", gasPrice := "0",
  gasToken := zeroAddress, refundReceiver := zeroAddress, nonce := 5,
  signatures := [("0xa1", "0xsigA")], createDate := "2024-01-01",
  status := "PENDING", metadata := [], chainId := some (.num 1),
  executionDate := none, isExecuted := false, isSuccessful := none }

/-- A full 66-character hash ending in `aaaaaaaa`. -/
def hashA : String := "0x" ++ String.mk (List.replicate 56 'c') ++ "aaaaaaaa"

/-- A full 66-character hash ending in `bbbbbbbb`. -/
def hashB : String := "0x" ++ String.mk (List.replicate 56 'd') ++ "bbbbbbbb"

def txA : SaferTransaction := { sampleTx1 with hash := hashA }

def txB : SaferTransaction := { sampleTx1 with hash := hashB }

/-- A directory holding the saved files of `txA` and `txB`
(named `5-aaaaaaaa.safer` and `5-bbbbbbbb.safer`). -/
def dirC : TxDir :=
  [((transactionToFile txA).filename, (transactionToFile txA).content),
   ((transactionToFile txB).filename, (transactionToFile txB).content)]

/-- An execution environment over owners `0xa1, 0xb2, 0xc3` with
threshold 2. -/
def envSigners (executor : String) (b : BroadcastResult) (n : String) :
    ExecEnv := {
  executorAddress := executor, owners := ["0xa1", "0xb2", "0xc3"],
  threshold := 2, broadcast := b, chainId := .num 1, now := n }

/-- A broadcast handle whose confirmation wait times out. -/
def respTimeout : TxResponse :=
  { hash := "0xeth", wait := .failed "Transaction confirmation timeout" }

/-- Environment in which owner `0xb2` executes and the confirmation
wait times out. -/
def envTimeout : ExecEnv :=
  envSigners "0xb2" (.succeeds "0xh1" (some respTimeout)) "t1"

/-- The entity `executeTransaction` actually hands back in
`envTimeout`: status `PENDING`, generic error annotations, no
`confirmationError` key. -/
def confirmTimeoutResult : SaferTransaction := {
  sampleTx1 with metadata :=
    [("errorMessage", .str "Transaction confirmation timeout"),
     ("errorCode", .undef), ("errorTime", .str "t1")] }

/-- The `TransactionExecutionError` thrown when owner `0xa1` (the
existing signer) tries to execute `sampleTx1` at time `n`. -/
def sigErrAt (n : String) : TxExecError := {
  message := "Insufficient signatures to execute: 1/1 (executor counts as a signature)"
  code := some "INSUFFICIENT_SIGNATURES"
  current := some 1
  required := some 1
  transaction := { sampleTx1 with metadata :=
    [("outerErrorMessage",
      .str "Insufficient signatures to execute: 1/1 (executor counts as a signature)"),
     ("outerErrorCode", .str "INSUFFICIENT_SIGNATURES"),
     ("outerErrorTime", .str n),
     ("ledgerError", .bool false)] } }

/-- Constructor arguments with no `chainId` (and required fields
present). -/
def pNC : TxParams := {
  hash := some "0xh1", toAddr := some "0xt1", nonce := some 5,
  signatures := some [("0xa1", "0xsigA")],
  createDate := some "2024-01-01" }

/-- The entity the constructor produces from `pNC`: `chainId` absent. -/
def txNC : SaferTransaction := { sampleTx1 with chainId := none }

/-- `sampleTx1` after re-signing by `0xa1` with a different blob. -/
def txResign : SaferTransaction :=
  { sampleTx1 with signatures := [("0xa1", "0xsig2")] }

/-- The threshold rule as the specification words it: with
`n = |signatures|`, enough iff `n ≥ threshold`, or an executor address
is given that has not already signed (case-insensitive) and
`n + 1 ≥ threshold`. -/
def hasEnoughSignatures_spec (tx : SaferTransaction) (threshold : Int)
    (executorAddress : Option String) : Prop :=
  (tx.signatures.length : Int) ≥ threshold ∨
    (∃ e, executorAddress = some e ∧ e ≠ "" ∧
      ((objKeys tx.signatures).map jsToLower).contains (jsToLower e) = false ∧
      (tx.signatures.length : Int) + 1 ≥ threshold)

/-- A serialized data object with no `chainId`. -/
def dNC : TxData :=
  { hash := some "0xh1", toAddr := some "0xt1", nonce := some 5 }

/-- An envelope wrapping `dNC`. -/
def fNC : TxFile :=
  { version := "0.1.1", type := "SaferTransaction", data := some dNC }

/-! ### Helper lemmas -/

theorem mkSaferTransaction_ok (p : TxParams) (now : String)
    (h1 : jsFalsyStr p.hash = false) (h2 : jsFalsyStr p.toAddr = false)
    (h3 : ¬ p.nonce = none) :
    mkSaferTransaction p now = .ok (mkFields p now) := by
  unfold mkSaferTransaction
  simp [h1, h2, h3]

theorem mk_chainId (p : TxParams) (now : String) (tx : SaferTransaction)
    (h : mkSaferTransaction p now = .ok tx) : tx.chainId = p.chainId := by
  unfold mkSaferTransaction at h
  split at h
  · simp at h
  · split at h
    · simp at h
    · split at h
      · simp at h
      · cases h
        simp [mkFields]

theorem mem_setKey_of_ne {α : Type} (m : List (String × α)) (k : String)
    (v : α) (p : String × α) (hp : p ∈ m) (hne : p.1 ≠ k) :
    p ∈ setKey m k v := by
  unfold setKey
  split
  · exact List.mem_map.mpr ⟨p, hp, by simp [hne]⟩
  · exact List.mem_append_left _ hp

theorem key_mem_setKey {α : Type} (m : List (String × α)) (k : String)
    (v : α) (p : String × α) (hp : p ∈ m) :
    p.1 ∈ objKeys (setKey m k v) := by
  unfold setKey
  by_cases hk : p.1 = k
  · have hcon : (objKeys m).contains k = true := by
      have : k ∈ objKeys m := hk ▸ List.mem_map_of_mem Prod.fst hp
      simpa using this
    rw [if_pos hcon]
    have hmem : (k, v) ∈ m.map (fun q => if q.1 = k then (k, v) else q) :=
      List.mem_map.mpr ⟨p, hp, by simp [hk]⟩
    rw [hk]
    exact List.mem_map.mpr ⟨(k, v), hmem, rfl⟩
  · unfold objKeys
    split
    · exact List.mem_map.mpr ⟨(if p.1 = k then (k, v) else p),
        List.mem_map.mpr ⟨p, hp, rfl⟩, by simp [hk]⟩
    · exact List.mem_map.mpr ⟨p, List.mem_append_left _ hp, rfl⟩

theorem lookup_map_replace {α : Type} (m : List (String × α)) (k : String)
    (v : α) (h : k ∈ objKeys m) :
    (m.map (fun q => if q.1 = k then (k, v) else q)).lookup k = some v := by
  induction m with
  | nil => simp [objKeys] at h
  | cons a m ih =>
    simp only [List.map_cons]
    by_cases ha : a.1 = k
    · rw [if_pos ha]
      simp [List.lookup]
    · rw [if_neg ha]
      have h' : k ∈ objKeys m := by
        simp only [objKeys, List.map_cons, List.mem_cons] at h
        rcases h with h | h
        · exact absurd h.symm ha
        · simpa [objKeys] using h
      have hk : (k == a.1) = false :=
        beq_eq_false_iff_ne.mpr (fun hh => ha hh.symm)
      simp only [List.lookup, hk]
      exact ih h'

theorem lookup_append_single {α : Type} (m : List (String × α)) (k : String)
    (v : α) (h : ¬ k ∈ objKeys m) :
    (m ++ [(k, v)]).lookup k = some v := by
  induction m with
  | nil => simp [List.lookup]
  | cons a m ih =>
    have ha : ¬ a.1 = k := by
      intro hh
      exact h (by simp [objKeys, hh])
    have h' : ¬ k ∈ objKeys m := by
      intro hh
      exact h (by simp [objKeys] at hh ⊢; right; simpa [objKeys] using hh)
    have hk : (k == a.1) = false :=
      beq_eq_false_iff_ne.mpr (fun hh => ha hh.symm)
    simp only [List.cons_append, List.lookup, hk]
    exact ih h'

theorem lookup_setKey_self {α : Type} (m : List (String × α)) (k : String)
    (v : α) : (setKey m k v).lookup k = some v := by
  unfold setKey
  split
  · rename_i hcon
    apply lookup_map_replace
    simpa using hcon
  · rename_i hcon
    apply lookup_append_single
    simpa using hcon

theorem jsToLower_length (s : String) : (jsToLower s).length = s.length := by
  cases s with
  | mk l => simp [jsToLower, String.length]

theorem dirLookup_scan_hit (listing : TxDir) (input now : String)
    (t : SaferTransaction)
    (hs : jsStartsWith input "0x" = true)
    (hne : ¬ (listing.filter (fun q => jsEndsWith q.1 ".safer")).length = 0)
    (hscan : scanExact (listing.filter (fun q => jsEndsWith q.1 ".safer"))
      (jsToLower input) now = some t) :
    dirLookup listing input now = .foundOk t := by
  unfold dirLookup
  rw [if_neg hne]
  simp only [hs, if_true]
  rw [hscan]

theorem dirLookup_suffix_hit (listing : TxDir) (input now : String)
    (f : String × TxFile) (t : SaferTransaction)
    (hs : jsStartsWith input "0x" = true)
    (hlen : (jsToLower input).length = 66)
    (hne : ¬ (listing.filter (fun q => jsEndsWith q.1 ".safer")).length = 0)
    (hscan : scanExact (listing.filter (fun q => jsEndsWith q.1 ".safer"))
      (jsToLower input) now = none)
    (hfind : (listing.filter (fun q => jsEndsWith q.1 ".safer")).find?
      (fun q => jsIncludes q.1 (jsSliceLast8 (jsToLower input))) = some f)
    (hp : transactionFromFile f.2 now = .ok t) :
    dirLookup listing input now = .foundOk t := by
  unfold dirLookup
  rw [if_neg hne]
  simp only [hs, if_true]
  rw [hscan]
  dsimp only
  rw [if_pos hlen, hfind]
  dsimp only
  rw [hp]

theorem loadIPFSLoop_first_success (post : List GatewayResult)
    (g : GatewayResult) (tx : SaferTransaction) (now : String) :
    ∀ (pre : List GatewayResult),
    (∀ g' ∈ pre, ∃ m, attemptGateway g' now = .error m) →
    attemptGateway g now = .ok tx →
    ∀ le, loadIPFSLoop (pre ++ g :: post) le now = .ok tx := by
  intro pre
  induction pre with
  | nil =>
    intro _ hg le
    rw [List.nil_append]
    unfold loadIPFSLoop
    rw [hg]
  | cons a pre ih =>
    intro hpre hg le
    rcases hpre a (by simp) with ⟨m, hm⟩
    rw [List.cons_append]
    unfold loadIPFSLoop
    rw [hm]
    exact ih (fun g' hg' => hpre g' (by simp [hg'])) hg (some m)

theorem loadIPFSLoop_all_fail (glast : GatewayResult) (m now : String) :
    ∀ (init : List GatewayResult),
    (∀ g' ∈ init, ∃ m', attemptGateway g' now = .error m') →
    attemptGateway glast now = .error m →
    ∀ le, loadIPFSLoop (init ++ [glast]) le now =
      .error (.notFound (some m)) := by
  intro init
  induction init with
  | nil =>
    intro _ hg le
    rw [List.nil_append]
    unfold loadIPFSLoop
    rw [hg]
    rfl
  | cons a init ih =>
    intro hpre hg le
    rcases hpre a (by simp) with ⟨m', hm⟩
    rw [List.cons_append]
    unfold loadIPFSLoop
    rw [hm]
    exact ih (fun g' hg' => hpre g' (by simp [hg'])) hg (some m')

/-! ### Claim theorems -/

/-- Claim C1: `hasEnoughSignatures(threshold, executorAddress?)` is true
iff the signature count `n` satisfies `n ≥ threshold`, or an executor
address is given that has not already signed (case-insensitive) and
`n + 1 ≥ threshold`; in particular with threshold 2 and one existing
signature, an executor other than the signer yields true and the signer
as executor yields false. -/
theorem hasEnoughSignatures_matches_spec :
    (∀ (tx : SaferTransaction) (threshold : Int) (ea : Option String),
      tx.hasEnoughSignatures threshold ea = true ↔
        hasEnoughSignatures_spec tx threshold ea)
    ∧ sampleTx1.hasEnoughSignatures 2 (some "0xb2") = true
    ∧ sampleTx1.hasEnoughSignatures 2 (some "0xA1") = false := by
  refine ⟨?_, by decide, by decide⟩
  intro tx t ea
  unfold SaferTransaction.hasEnoughSignatures hasEnoughSignatures_spec
    SaferTransaction.isSignedBy
  by_cases hn : (tx.signatures.length : Int) ≥ t
  · simp [hn]
  · rcases ea with _ | e
    · simp [jsFalsyStr, hn]
    · by_cases he : e = ""
      · simp [jsFalsyStr, he, hn]
      · by_cases hs :
          ((objKeys tx.signatures).map jsToLower).contains (jsToLower e) = true
        · simp [jsFalsyStr, he, hn, hs]
        · simp [jsFalsyStr, he, hn, hs]

/-- Claim C2: the claim says a confirmation-wait timeout or error leaves
the caller's entity `SUBMITTED` with a `confirmationError` annotation.
The code builds exactly that entity but immediately re-throws the
confirmation error; the inner catch then *overwrites* it with a
`PENDING` entity carrying only generic `errorMessage` annotations, and
the outer catch hands that `PENDING` entity back.  This theorem
evaluates the model at the failing input (broadcast succeeded with a
transaction-response handle, wait timed out): the returned entity is
`PENDING` with no `confirmationError` key — contradicting the
claim/spec and the code's own comment at lines 200–201. -/
theorem executeTransaction_confirmError_clobbered :
    executeTransaction envTimeout sampleTx1 =
      .ok (.returned confirmTimeoutResult) ∧
    confirmTimeoutResult.status = STATUS_PENDING ∧
    confirmTimeoutResult.status ≠ STATUS_SUBMITTED ∧
    (objKeys confirmTimeoutResult.metadata).contains "confirmationError" =
      false ∧
    (objKeys confirmTimeoutResult.metadata).contains "errorMessage" =
      true := by
  decide

/-- Claim C3: when the broadcast returns without a transaction-response
handle, `executeTransaction` hands back an entity whose status is
`PENDING` with the explicit status-uncertain warning in metadata, and
the status is neither `SUBMITTED` nor `SUCCESSFUL`. -/
theorem executeTransaction_noReceipt_pending :
    ∀ (env : ExecEnv) (tx : SaferTransaction) (bhash : String),
      tx.hash ≠ "" → tx.toAddr ≠ "" →
      env.broadcast = .succeeds bhash none →
      tx.hasEnoughSignatures env.threshold
        (if env.owners.any (fun o => jsToLower o = jsToLower env.executorAddress)
         then some env.executorAddress else none) = true →
      ∃ r, executeTransaction env tx = .ok (.returned r) ∧
        r.status = STATUS_PENDING ∧
        r.status ≠ STATUS_SUBMITTED ∧ r.status ≠ STATUS_SUCCESSFUL ∧
        r.metadata.lookup "warning" =
          some (.str "Transaction execution returned no receipt. Status uncertain.") := by
  intro env tx bhash hh ht hb hguard
  refine ⟨mkFields { spreadTx tx with
      status := some STATUS_PENDING
      metadata := some (setKeys tx.metadata
        [("executor", .str env.executorAddress),
         ("warning", .str "Transaction execution returned no receipt. Status uncertain.")])
      chainId := some env.chainId } env.now, ?_, ?_, ?_, ?_, ?_⟩
  · unfold executeTransaction
    dsimp only
    rw [hguard, hb]
    rw [if_neg (by simp)]
    dsimp only
    rw [mkSaferTransaction_ok _ _ (by simp [spreadTx, jsFalsyStr, hh])
      (by simp [spreadTx, jsFalsyStr, ht]) (by simp [spreadTx])]
    rw [mkSaferTransaction_ok _ _ (by simp [spreadTx, jsFalsyStr, hh])
      (by simp [spreadTx, jsFalsyStr, ht]) (by simp [spreadTx])]
    rfl
  · simp [mkFields, spreadTx]
  · simp [mkFields, spreadTx, STATUS_PENDING, STATUS_SUBMITTED]
  · simp [mkFields, spreadTx, STATUS_PENDING, STATUS_SUCCESSFUL]
  · simp only [mkFields, spreadTx, setKeys, List.foldl, Option.getD_some]
    exact lookup_setKey_self _ _ _

/-- Witness for C3: owner `0xb2` executes `sampleTx1` and the broadcast
returns no transaction-response handle. -/
theorem executeTransaction_noReceipt_pending_witness :
    ∃ r, executeTransaction (envSigners "0xb2" (.succeeds "0xh1" none) "t1")
        sampleTx1 = .ok (.returned r) ∧
      r.status = STATUS_PENDING ∧
      r.status ≠ STATUS_SUBMITTED ∧ r.status ≠ STATUS_SUCCESSFUL ∧
      r.metadata.lookup "warning" =
        some (.str "Transaction execution returned no receipt. Status uncertain.") :=
  executeTransaction_noReceipt_pending
    (envSigners "0xb2" (.succeeds "0xh1" none) "t1") sampleTx1 "0xh1"
    (by decide) (by decide) rfl (by decide)

/-- Claim C4 (amended): the serialization round-trip
`transactionFromFile (transactionToFile tx)` reproduces the entity in
every field for every constructible entity *whose `chainId` is present
and truthy*; the original unconditional claim fails because the
constructor accepts an absent `chainId` while the loader rejects it
(see the counterexample).  The non-`chainId` hypotheses are invariants
guaranteed by the constructor. -/
theorem transaction_roundtrip (tx : SaferTransaction) (now : String)
    (h1 : tx.hash ≠ "") (h2 : tx.toAddr ≠ "") (h3 : tx.value ≠ "")
    (h4 : tx.data ≠ "") (h5 : cidTruthy tx.chainId = true) :
    transactionFromFile (transactionToFile tx).content now = .ok tx := by
  simp [transactionFromFile, transactionToFile, jsFalsyStr, h1, h2, h3, h4,
    h5, mkSaferTransaction, mkFields, SaferTransaction.mk.injEq]

/-- Witness for C4: round-trip of the concrete entity `sampleTx1`. -/
theorem transaction_roundtrip_witness :
    transactionFromFile (transactionToFile sampleTx1).content "zz" =
      .ok sampleTx1 :=
  transaction_roundtrip sampleTx1 "zz" (by decide) (by decide) (by decide)
    (by decide) (by decide)

/-- Counterexample for C4: `txNC` is a real entity (the constructor
accepts `pNC`, which has no `chainId`), yet parsing its own saved file
fails instead of reproducing it. -/
theorem transaction_roundtrip_missing_chainId_cex :
    mkSaferTransaction pNC "t0" = .ok txNC ∧
    transactionFromFile (transactionToFile txNC).content "t0" =
      .error "Missing transaction chainId" := by
  decide

/-- Claim C5 (amended): with threshold 2, owners `[0xa1, 0xb2, 0xc3]`
and one signature from `0xa1`: executor `0xb2` passes the guard and,
whatever the broadcast outcome, the call never throws the signature
error; executor `0xa1` is rejected before any broadcast (the thrown
error is the same for every broadcast outcome) with
`current = 1` and `required = 1` — the code reports
`threshold - 1` as the requirement when the executor is an owner, not
the full threshold 2 the original claim states — and the attached
entity still has status `PENDING` and the unchanged signature map. -/
theorem executeGuard_signature_counts :
    (∀ (b : BroadcastResult) (n : String),
      executeTransaction (envSigners "0xa1" b n) sampleTx1 =
        .ok (.threw (sigErrAt n)))
    ∧ (∀ (b : BroadcastResult) (n : String),
      ∃ r, executeTransaction (envSigners "0xb2" b n) sampleTx1 =
        .ok (.returned r))
    ∧ sampleTx1.hasEnoughSignatures 2 (some "0xb2") = true
    ∧ (∀ n : String, (sigErrAt n).current = some 1 ∧
        (sigErrAt n).required = some 1 ∧
        (sigErrAt n).code = some "INSUFFICIENT_SIGNATURES" ∧
        (sigErrAt n).transaction.status = STATUS_PENDING ∧
        (sigErrAt n).transaction.signatures = sampleTx1.signatures) := by
  refine ⟨?_, ?_, by decide, ?_⟩
  · intro b n
    rfl
  · intro b n
    cases b with
    | throws msg code => exact ⟨_, rfl⟩
    | succeeds h resp =>
      cases resp with
      | none => exact ⟨_, rfl⟩
      | some r =>
        cases r with
        | mk rh rw' =>
          cases rw' with
          | confirmed st bn gu => exact ⟨_, rfl⟩
          | failed cmsg => exact ⟨_, rfl⟩
  · intro n
    exact ⟨rfl, rfl, rfl, rfl, rfl⟩

/-- Counterexample for C5: the signature error thrown for executor
`0xa1` carries `required = 1`, not the `required = 2` the claim
states. -/
theorem executeGuard_required_two_cex :
    executeTransaction (envSigners "0xa1" (.succeeds "0xh1" none) "t1")
      sampleTx1 = .ok (.threw (sigErrAt "t1")) ∧
    (sigErrAt "t1").current = some 1 ∧
    (sigErrAt "t1").required = some 1 ∧
    ¬ (sigErrAt "t1").required = some 2 := by
  decide

/-- Claim C6: identifier resolution for full-hash inputs (`0x` + 64
chars): an exact (case-insensitive) hash match among the parsed files
is returned when one exists; otherwise the first file whose name
contains the last 8 characters of the input is parsed and returned;
and with files `5-aaaaaaaa.safer` and `5-bbbbbbbb.safer` present,
looking up by the suffix string `aaaaaaaa` returns exactly the
transaction stored in the first file. -/
theorem loadTransaction_identifier_resolution :
    (∀ (listing : TxDir) (input now : String) (t : SaferTransaction)
       (f : String × TxFile),
       jsStartsWith input "0x" = true → input.length = 66 →
       f ∈ listing.filter (fun q => jsEndsWith q.1 ".safer") →
       transactionFromFile f.2 now = .ok t →
       jsToLower t.hash = jsToLower input →
       ∃ t', loadTransaction [listing] input now = .ok t' ∧
         jsToLower t'.hash = jsToLower input)
    ∧ (∀ (listing : TxDir) (input now : String) (t : SaferTransaction)
       (f : String × TxFile),
       jsStartsWith input "0x" = true → input.length = 66 →
       scanExact (listing.filter (fun q => jsEndsWith q.1 ".safer"))
         (jsToLower input) now = none →
       (listing.filter (fun q => jsEndsWith q.1 ".safer")).find?
         (fun q => jsIncludes q.1 (jsSliceLast8 (jsToLower input))) = some f →
       transactionFromFile f.2 now = .ok t →
       loadTransaction [listing] input now = .ok t)
    ∧ loadTransaction [dirC] "aaaaaaaa" "zz" = .ok txA := by
  refine ⟨?_, ?_, by decide⟩
  · intro listing input now t f hs hl66 hf hp hm
    have hne : ¬ (listing.filter (fun q => jsEndsWith q.1 ".safer")).length = 0 :=
      fun h => (List.ne_nil_of_mem hf) (List.length_eq_zero.mp h)
    rcases hscan : scanExact (listing.filter (fun q => jsEndsWith q.1 ".safer"))
        (jsToLower input) now with _ | t'
    · exfalso
      have hgf := List.findSome?_eq_none_iff.mp hscan f hf
      rw [hp] at hgf
      simp [hm] at hgf
    · have hprop : jsToLower t'.hash = jsToLower input := by
        rcases List.exists_of_findSome?_eq_some hscan with ⟨a, _, hg⟩
        rcases hpc : transactionFromFile a.2 now with e | tx
        · rw [hpc] at hg
          simp at hg
        · rw [hpc] at hg
          dsimp only at hg
          by_cases hq : jsToLower tx.hash = jsToLower input
          · rw [if_pos hq] at hg
            cases hg
            exact hq
          · simp [hq] at hg
      refine ⟨t', ?_, hprop⟩
      unfold loadTransaction
      rw [dirLookup_scan_hit listing input now t' hs hne hscan]
  · intro listing input now t f hs hl66 hscan hfind hp
    have hne : ¬ (listing.filter (fun q => jsEndsWith q.1 ".safer")).length = 0 :=
      fun h => (List.ne_nil_of_mem (List.mem_of_find?_eq_some hfind))
        (List.length_eq_zero.mp h)
    have hlen : (jsToLower input).length = 66 := by
      rw [jsToLower_length]; exact hl66
    unfold loadTransaction
    rw [dirLookup_suffix_hit listing input now f t hs hlen hne hscan hfind hp]

/-- Witness for C6: loading `txA` from `dirC` by its full hash finds
the exact match. -/
theorem loadTransaction_identifier_resolution_witness :
    ∃ t', loadTransaction [dirC] hashA "zz" = .ok t' ∧
      jsToLower t'.hash = jsToLower hashA :=
  loadTransaction_identifier_resolution.1 dirC hashA "zz" txA
    ((transactionToFile txA).filename, (transactionToFile txA).content)
    (by decide) (by decide) (by decide) (by decide) (by decide)

/-- Claim C7: gateway fallback is strictly sequential: the first
gateway whose fetch-and-parse succeeds determines the result (later
gateways untouched), every failure is caught and the next gateway
tried, and when every gateway fails a NotFound error carrying the last
error is raised; with three gateways where the first two fail and the
third succeeds, the parsed entity is returned and no error surfaces. -/
theorem ipfs_gateway_fallback :
    (∀ (pre post : List GatewayResult) (g : GatewayResult)
       (tx : SaferTransaction) (cid now : String),
       cid ≠ "" →
       (∀ g' ∈ pre, ∃ m, attemptGateway g' now = .error m) →
       attemptGateway g now = .ok tx →
       loadTransactionFromIPFS cid (pre ++ g :: post) now = .ok tx)
    ∧ (∀ (init : List GatewayResult) (glast : GatewayResult)
       (m cid now : String),
       cid ≠ "" →
       (∀ g' ∈ init, ∃ m', attemptGateway g' now = .error m') →
       attemptGateway glast now = .error m →
       loadTransactionFromIPFS cid (init ++ [glast]) now =
         .error (.notFound (some m)))
    ∧ loadTransactionFromIPFS "QmX"
        [.failure "gateway 1 down", .failure "gateway 2 down",
         .objEnvelope (transactionToFile txA).content] "zz" = .ok txA := by
  refine ⟨?_, ?_, by decide⟩
  · intro pre post g tx cid now hcid hpre hg
    unfold loadTransactionFromIPFS
    rw [if_neg hcid]
    exact loadIPFSLoop_first_success post g tx now pre hpre hg none
  · intro init glast m cid now hcid hinit hg
    unfold loadTransactionFromIPFS
    rw [if_neg hcid]
    exact loadIPFSLoop_all_fail glast m now init hinit hg none

/-- Witness for C7: one failing gateway followed by a succeeding one. -/
theorem ipfs_gateway_fallback_witness :
    loadTransactionFromIPFS "QmX"
      [GatewayResult.failure "down",
       GatewayResult.objEnvelope (transactionToFile txA).content] "zz" =
      .ok txA :=
  ipfs_gateway_fallback.1 [GatewayResult.failure "down"] []
    (GatewayResult.objEnvelope (transactionToFile txA).content) txA
    "QmX" "zz" (by decide)
    (fun g' hg' => by
      simp at hg'
      exact ⟨"down", by rw [hg']; rfl⟩)
    (by decide)

/-- Claim C8 (amended): `addSignature` merges into a new signature map
in which every previously present entry whose owner key differs from
the added owner is unchanged, and no owner key is ever removed; adding
signature B after signature A preserves A's entry.  The original
unconditional claim fails when the *same* owner key is re-added: the
merge then replaces that owner's signature blob (see the
counterexample). -/
theorem addSignature_appendOnly :
    (∀ (tx : SaferTransaction) (owner sig now : String),
      tx.hash ≠ "" → tx.toAddr ≠ "" →
      ∃ tx', tx.addSignature owner sig now = .ok tx' ∧
        tx'.signatures = setKey tx.signatures owner sig ∧
        (∀ p ∈ tx.signatures, p.1 ≠ owner → p ∈ tx'.signatures) ∧
        (∀ p ∈ tx.signatures, p.1 ∈ objKeys tx'.signatures))
    ∧ sampleTx1.addSignature "0xb2" "0xsigB" "t9" =
        .ok { sampleTx1 with
          signatures := [("0xa1", "0xsigA"), ("0xb2", "0xsigB")] } := by
  refine ⟨?_, by decide⟩
  intro tx owner sig now hh ht
  have hsig : (mkFields { spreadTx tx with
      signatures := some (setKey tx.signatures owner sig) } now).signatures =
      setKey tx.signatures owner sig := by
    simp [mkFields, spreadTx]
  refine ⟨mkFields { spreadTx tx with
      signatures := some (setKey tx.signatures owner sig) } now, ?_, hsig,
      ?_, ?_⟩
  · unfold SaferTransaction.addSignature
    exact mkSaferTransaction_ok _ _ (by simp [spreadTx, jsFalsyStr, hh])
      (by simp [spreadTx, jsFalsyStr, ht]) (by simp [spreadTx])
  · intro p hp hne
    rw [hsig]
    exact mem_setKey_of_ne _ _ _ _ hp hne
  · intro p hp
    rw [hsig]
    exact key_mem_setKey _ _ _ _ hp

/-- Witness for C8: adding `0xb2`'s signature after `0xa1`'s. -/
theorem addSignature_appendOnly_witness :
    ∃ tx', sampleTx1.addSignature "0xb2" "0xsigB" "t9" = .ok tx' ∧
      tx'.signatures = setKey sampleTx1.signatures "0xb2" "0xsigB" ∧
      (∀ p ∈ sampleTx1.signatures, p.1 ≠ "0xb2" → p ∈ tx'.signatures) ∧
      (∀ p ∈ sampleTx1.signatures, p.1 ∈ objKeys tx'.signatures) :=
  addSignature_appendOnly.1 sampleTx1 "0xb2" "0xsigB" "t9" (by decide)
    (by decide)

/-- Counterexample for C8: re-adding owner `0xa1` with a different blob
replaces the previously present entry, so the unconditional
"every previously present owner's entry is unchanged" fails. -/
theorem addSignature_resign_cex :
    sampleTx1.addSignature "0xa1" "0xsig2" "t9" = .ok txResign ∧
    ("0xa1", "0xsigA") ∈ sampleTx1.signatures ∧
    ("0xa1", "0xsigA") ∉ txResign.signatures := by
  decide

/-- Claim C9 (amended): `chainId` is never defaulted — the constructor
stores exactly the supplied value, and a parsed file only ever yields a
truthy `chainId`; parsing a stored file whose `chainId` is absent (or
falsy) is rejected with "Missing transaction chainId"; but, contrary to
the original claim, constructing an entity directly with `chainId`
absent is *not* rejected — the constructor performs no `chainId` check
(see the counterexample). -/
theorem chainId_required_not_defaulted :
    (∀ (p : TxParams) (now : String) (tx : SaferTransaction),
      mkSaferTransaction p now = .ok tx → tx.chainId = p.chainId)
    ∧ (∀ (f : TxFile) (d : TxData) (now : String),
      f.data = some d → f.version ≠ "" → f.type = "SaferTransaction" →
      jsFalsyStr d.hash = false → jsFalsyStr d.toAddr = false →
      ¬ d.nonce = none → cidTruthy d.chainId = false →
      transactionFromFile f now = .error "Missing transaction chainId")
    ∧ (∀ (f : TxFile) (now : String) (tx : SaferTransaction),
      transactionFromFile f now = .ok tx → cidTruthy tx.chainId = true) := by
  refine ⟨fun p now tx h => mk_chainId p now tx h, ?_, ?_⟩
  · intro f d now hd hv ht hh hta hn hc
    unfold transactionFromFile
    rw [if_neg hv, if_neg (fun hx => hx ht), hd]
    dsimp only
    rw [if_neg (by simp [hh]), if_neg (by simp [hta]), if_neg hn,
      if_pos (by simp [hc])]
  · intro f now tx h
    unfold transactionFromFile at h
    split at h
    · simp at h
    · split at h
      · simp at h
      · split at h
        · simp at h
        · split at h
          · simp at h
          · split at h
            · simp at h
            · split at h
              · simp at h
              · split at h
                · simp at h
                · rename_i hc
                  rw [mk_chainId _ _ _ h]
                  simp at hc
                  simpa using hc

/-- Witness for C9: concrete instances of the three parts. -/
theorem chainId_required_not_defaulted_witness :
    txNC.chainId = pNC.chainId ∧
    transactionFromFile fNC "t0" = .error "Missing transaction chainId" :=
  ⟨chainId_required_not_defaulted.1 pNC "t0" txNC (by decide),
   chainId_required_not_defaulted.2.1 fNC dNC "t0" rfl (by decide) rfl
     (by decide) (by decide) (by decide) (by decide)⟩

/-- Counterexample for C9: the constructor accepts `pNC`, which has no
`chainId`, and produces an entity with `chainId` absent instead of
rejecting it. -/
theorem chainId_constructor_accepts_absent_cex :
    mkSaferTransaction pNC "t0" = .ok txNC ∧ txNC.chainId = none := by
  decide

/-- Claim C10: `updateStatus` changes only the `status` field; every
other field — including the previously computed `isExecuted` and
`isSuccessful` booleans, which are carried over rather than recomputed
— equals the original entity's; in particular
`updateStatus(SUCCESSFUL)` on a PENDING entity keeps
`isExecuted = false` and `isSuccessful = null`.  The hypotheses are
constructor invariants of every real entity. -/
theorem updateStatus_frame :
    (∀ (tx : SaferTransaction) (newStatus now : String),
      tx.hash ≠ "" → tx.toAddr ≠ "" → tx.value ≠ "" → tx.data ≠ "" →
      tx.updateStatus newStatus now = .ok { tx with status := newStatus })
    ∧ sampleTx1.updateStatus STATUS_SUCCESSFUL "t9" =
        .ok { sampleTx1 with status := STATUS_SUCCESSFUL }
    ∧ ({ sampleTx1 with status := STATUS_SUCCESSFUL } :
        SaferTransaction).isExecuted = false
    ∧ ({ sampleTx1 with status := STATUS_SUCCESSFUL } :
        SaferTransaction).isSuccessful = none := by
  refine ⟨?_, by decide, by decide, by decide⟩
  intro tx newStatus now h1 h2 h3 h4
  unfold SaferTransaction.updateStatus
  rw [mkSaferTransaction_ok _ _ (by simp [spreadTx, jsFalsyStr, h1])
    (by simp [spreadTx, jsFalsyStr, h2]) (by simp [spreadTx])]
  simp [mkFields, spreadTx, SaferTransaction.mk.injEq, h3, h4]

/-- Witness for C10: the frame theorem applied to `sampleTx1`. -/
theorem updateStatus_frame_witness :
    sampleTx1.updateStatus STATUS_SUCCESSFUL "t9" =
      .ok { sampleTx1 with status := STATUS_SUCCESSFUL } :=
  updateStatus_frame.1 sampleTx1 STATUS_SUCCESSFUL "t9" (by decide)
    (by decide) (by decide) (by decide)
